import Mathlib

/-
  Verification development for the GitHub device-flow authentication core of
  the plynk-io desktop application.

  JavaScript strings are modelled as lists of character codes (List Nat) in
  the token store, where character-level operations matter, and as Lean
  String elsewhere; the helper str2codes converts a Lean string literal to
  the code-list representation. Fallible JavaScript operations (btoa on
  non-Latin-1 input, atob on invalid base64, fetch and json rejections) are
  modelled with Option and explicit outcome constructors. A JS promise
  settles at most once; settleOnce models that resolve and reject are no-ops
  on an already settled promise.
-/

/-- Character codes of a Lean string literal, modelling a JS string value. -/
def str2codes (s : String) : List Nat := s.toList.map Char.toNat

/-! ## Base64 codec (model of the platform btoa and atob built-ins)

The stored token is obfuscated with btoa and recovered with atob
(githubAuthStore.tsx, encryptToken and decryptToken). We model the standard
base64 alphabet by its character codes; 61 is the code of the padding
character. -/

/-- The 64 base64 alphabet character codes: A-Z, a-z, 0-9, plus, slash. -/
def b64alpha : List Nat :=
  [65, 66, 67, 68, 69, 70, 71, 72, 73, 74, 75, 76, 77, 78, 79, 80, 81, 82,
   83, 84, 85, 86, 87, 88, 89, 90,
   97, 98, 99, 100, 101, 102, 103, 104, 105, 106, 107, 108, 109, 110, 111,
   112, 113, 114, 115, 116, 117, 118, 119, 120, 121, 122,
   48, 49, 50, 51, 52, 53, 54, 55, 56, 57, 43, 47]

/-- Code of the sextet n in the base64 alphabet. -/
def b64c (n : Nat) : Nat := b64alpha.getD n 65

/-- Sextet value of a base64 alphabet character code, none when invalid. -/
def decChar (c : Nat) : Option Nat := b64alpha.findIdx? (fun x => x == c)

/-- Base64-encode a byte list (the output of btoa, as character codes). -/
def encB64 : List Nat → List Nat
  | [] => []
  | [b1] => [b64c (b1 / 4), b64c (b1 % 4 * 16), 61, 61]
  | [b1, b2] => [b64c (b1 / 4), b64c (b1 % 4 * 16 + b2 / 16), b64c (b2 % 16 * 4), 61]
  | b1 :: b2 :: b3 :: rest =>
      b64c (b1 / 4) :: b64c (b1 % 4 * 16 + b2 / 16) ::
      b64c (b2 % 16 * 4 + b3 / 64) :: b64c (b3 % 64) :: encB64 rest

/-- Base64-decode a character-code list back to bytes (model of atob);
none on input that is not valid base64. -/
def decB64 : List Nat → Option (List Nat)
  | [] => some []
  | a :: b :: c :: d :: rest =>
      if rest.isEmpty then
        if c == 61 && d == 61 then
          match decChar a, decChar b with
          | some s1, some s2 =>
              if s2 % 16 == 0 then some [s1 * 4 + s2 / 16] else none
          | _, _ => none
        else if d == 61 then
          match decChar a, decChar b, decChar c with
          | some s1, some s2, some s3 =>
              if s3 % 4 == 0 then
                some [s1 * 4 + s2 / 16, s2 % 16 * 16 + s3 / 4]
              else none
          | _, _, _ => none
        else
          match decChar a, decChar b, decChar c, decChar d with
          | some s1, some s2, some s3, some s4 =>
              some [s1 * 4 + s2 / 16, s2 % 16 * 16 + s3 / 4, s3 % 4 * 64 + s4]
          | _, _, _, _ => none
      else
        match decChar a, decChar b, decChar c, decChar d, decB64 rest with
        | some s1, some s2, some s3, some s4, some bs =>
            some ((s1 * 4 + s2 / 16) :: (s2 % 16 * 16 + s3 / 4) ::
                  (s3 % 4 * 64 + s4) :: bs)
        | _, _, _, _, _ => none
  | _ => none

/-! ## TokenStore (githubAuthStore.tsx lines 29-76)

encryptToken appends the fixed salt and base64-encodes; decryptToken
base64-decodes and removes the first occurrence of the salt, as the JS
String.replace method does with a string pattern. The persisted state is a
single optional value under one storage key. -/

/-- Character codes of the obfuscation salt appended by encryptToken. -/
def saltCodes : List Nat := str2codes "_plynk_salt"

/-- Boolean test that p occurs at the start of s. -/
def isPrefixB : List Nat → List Nat → Bool
  | [], _ => true
  | _ :: _, [] => false
  | p :: ps, x :: xs => p == x && isPrefixB ps xs

/-- Boolean test that pat occurs somewhere in s. -/
def containsB : List Nat → List Nat → Bool
  | [], pat => isPrefixB pat []
  | x :: xs, pat => isPrefixB pat (x :: xs) || containsB xs pat

/-- Remove the first occurrence of pat from s, leaving s unchanged when pat
does not occur: the semantics of the JS s.replace(pat, empty string). -/
def replaceFirst : List Nat → List Nat → List Nat
  | [], _ => []
  | x :: xs, pat =>
      if isPrefixB pat (x :: xs) then List.drop pat.length (x :: xs)
      else x :: replaceFirst xs pat

/-- Model of encryptToken: btoa(token + salt); none when a character code is
outside the Latin-1 range accepted by btoa. -/
def encryptToken (t : List Nat) : Option (List Nat) :=
  if (t ++ saltCodes).all (fun b => b < 256) then some (encB64 (t ++ saltCodes))
  else none

/-- Model of decryptToken: atob then removal of the first salt occurrence;
none when atob fails (corrupt base64), mirroring the try/catch. -/
def decryptToken (e : List Nat) : Option (List Nat) :=
  match decB64 e with
  | none => none
  | some d => some (replaceFirst d saltCodes)

/-- The persisted auth state: the optional value stored under the single
github_auth_token key of localStorage. -/
abbrev TokenStorage := Option (List Nat)

/-- Model of getStoredToken: decrypt the stored value when present. -/
def getStoredToken : TokenStorage → Option (List Nat)
  | none => none
  | some e => decryptToken e

/-- Model of storeToken: encrypt and persist; none models the btoa throw on
non-Latin-1 input. The resulting storage does not depend on the prior value
because setItem overwrites. -/
def storeToken (t : List Nat) : Option TokenStorage :=
  match encryptToken t with
  | some e => some (some e)
  | none => none

/-- Model of removeToken: delete the persisted value. -/
def removeToken (_ : TokenStorage) : TokenStorage := none

/-! ## Token-endpoint responses (shared by all poller variants)

A poll of the token endpoint either throws (network or JSON parse failure,
landing in the catch block) or yields an HTTP status and a parsed body with
the GitHubTokenResponse fields. -/

/-- The parsed token-endpoint response body (interface GitHubTokenResponse). -/
structure TokenBody where
  access_token : Option String
  error : Option String
  error_description : Option String
deriving DecidableEq

/-- Outcome of one fetch of the token endpoint. -/
inductive FetchOutcome where
  | threw (msg : String)
  | ok (status : Nat) (body : TokenBody)
deriving DecidableEq

/-- Settlement of the pollForToken promise. -/
inductive DOutcome where
  | resolvedTok (t : String)
  | rejectedErr (msg : String)
deriving DecidableEq

/-- A response carrying only error authorization_pending. -/
def pendingBody : TokenBody :=
  { access_token := none, error := some "authorization_pending", error_description := none }

/-- A 200 response classified authorization_pending. -/
def pendingResp : FetchOutcome := FetchOutcome.ok 200 pendingBody

/-- A response carrying an access token. -/
def tokenBody : TokenBody :=
  { access_token := some "tok_abc", error := none, error_description := none }

/-- A 200 response carrying an access token. -/
def tokenResp : FetchOutcome := FetchOutcome.ok 200 tokenBody

/-- A response carrying only error slow_down. -/
def slowDownBody : TokenBody :=
  { access_token := none, error := some "slow_down", error_description := none }

/-- A 200 response classified slow_down. -/
def slowDownResp : FetchOutcome := FetchOutcome.ok 200 slowDownBody

/-- A response body with no token and no error field. -/
def emptyBody : TokenBody :=
  { access_token := none, error := none, error_description := none }

/-! ## Direct-fetch poller with rate-limit handling (part_004 lines 46-146)

GitHubAuthService.pollForToken: a module-wide activePolling record holds the
device code and the interval handle; a local pollCount counts attempts
against maxPolls = 180; a 15-minute timer independently rejects. The state
below carries: the global activePolling.deviceCode, whether the interval is
still installed, the closure-local pollCount, the number of token-exchange
requests actually dispatched, and the settlement of the returned promise. -/

/-- Poller state: activePolling.deviceCode, the interval handle, the local
pollCount, the requests dispatched so far and the promise settlement. -/
structure DPState where
  deviceCode : Option String
  hasInterval : Bool
  pollCount : Nat
  requests : Nat
  settled : Option DOutcome
deriving DecidableEq

/-- Settle the promise unless it is already settled (JS promise semantics). -/
def settleOnce (s : DPState) (o : DOutcome) : DPState :=
  match s.settled with
  | some _ => s
  | none => { s with settled := some o }

/-- Model of stopPolling (part_004 lines 139-146): clear the interval and
the active device code. -/
def dpStopPolling (s : DPState) : DPState :=
  { s with hasInterval := false, deviceCode := none }

/-- One execution of the poll closure of part_004 pollForToken for the
operation with device code d, given the fetch outcome r: cancelled check,
attempt ceiling, dispatch, 429 check, then body classification. -/
def dpPoll (d : String) (r : FetchOutcome) (s : DPState) : DPState :=
  if s.deviceCode ≠ some d then s
  else
    let s1 := { s with pollCount := s.pollCount + 1 }
    if 180 < s1.pollCount then
      settleOnce (dpStopPolling s1)
        (DOutcome.rejectedErr "Authorization timeout - exceeded maximum polling attempts")
    else
      let s2 := { s1 with requests := s1.requests + 1 }
      match r with
      | FetchOutcome.threw m => settleOnce (dpStopPolling s2) (DOutcome.rejectedErr m)
      | FetchOutcome.ok status body =>
        if status = 429 then
          settleOnce (dpStopPolling s2)
            (DOutcome.rejectedErr "Too many requests to GitHub. Please wait a few minutes and try again.")
        else
          match body.access_token with
          | some tok => settleOnce (dpStopPolling s2) (DOutcome.resolvedTok tok)
          | none =>
            match body.error with
            | some err =>
              if err = "authorization_pending" then s2
              else if err = "slow_down" then
                settleOnce (dpStopPolling s2)
                  (DOutcome.rejectedErr "Polling too frequently. Please wait and try again.")
              else
                settleOnce (dpStopPolling s2)
                  (DOutcome.rejectedErr (body.error_description.getD "Authorization failed"))
            | none => s2

/-- Model of the 15-minute timer callback of part_004 (lines 126-132): if the
operation is still the active one, stop polling and reject with the timeout
message. -/
def dpTimer (d : String) (s : DPState) : DPState :=
  if s.deviceCode = some d then
    settleOnce (dpStopPolling s) (DOutcome.rejectedErr "Authorization timeout")
  else s

/-- Events driving a polling operation: an interval tick delivering a fetch
outcome, or the firing of the 15-minute timer. -/
inductive DEvent where
  | tick (r : FetchOutcome)
  | timer
deriving DecidableEq

/-- One scheduler step: interval ticks run the poll closure only while the
interval is installed; clearInterval stops further ticks. -/
def dpStep (d : String) (e : DEvent) (s : DPState) : DPState :=
  match e with
  | DEvent.tick r => if s.hasInterval then dpPoll d r s else s
  | DEvent.timer => dpTimer d s

/-- Run a polling operation over a sequence of events. -/
def dpRun (d : String) (es : List DEvent) (s : DPState) : DPState :=
  es.foldl (fun s e => dpStep d e s) s

/-- State right after pollForToken installs the interval for device code d. -/
def dpInit (d : String) : DPState :=
  { deviceCode := some d, hasInterval := true, pollCount := 0, requests := 0, settled := none }

/-! ## Plain direct-fetch poller (githubAuth.ts lines 40-79)

The first variant of GitHubAuthService.pollForToken: no attempt counter, no
cancellation flag, no 429 check; the interval is cleared only by the
15-minute timer — in particular it is not cleared when the token arrives. -/

/-- State of the plain poller: the interval handle, requests dispatched and
the promise settlement. -/
structure VAState where
  hasInterval : Bool
  requests : Nat
  settled : Option DOutcome
deriving DecidableEq

/-- Settle the plain poller promise unless already settled. -/
def vaSettle (s : VAState) (o : DOutcome) : VAState :=
  match s.settled with
  | some _ => s
  | none => { s with settled := some o }

/-- One execution of the poll closure of the plain variant: resolve on a
token, reject on any error other than authorization_pending, otherwise do
nothing; the interval is never cleared here. -/
def vaPoll (r : FetchOutcome) (s : VAState) : VAState :=
  let s1 := { s with requests := s.requests + 1 }
  match r with
  | FetchOutcome.threw m => vaSettle s1 (DOutcome.rejectedErr m)
  | FetchOutcome.ok _ body =>
    match body.access_token with
    | some tok => vaSettle s1 (DOutcome.resolvedTok tok)
    | none =>
      match body.error with
      | some err =>
        if err = "authorization_pending" then s1
        else vaSettle s1 (DOutcome.rejectedErr (body.error_description.getD "Authorization failed"))
      | none => s1

/-- The 15-minute timer of the plain variant: clearInterval then reject. -/
def vaTimer (s : VAState) : VAState :=
  vaSettle { s with hasInterval := false } (DOutcome.rejectedErr "Authorization timeout")

/-- One scheduler step for the plain poller. -/
def vaStep (e : DEvent) (s : VAState) : VAState :=
  match e with
  | DEvent.tick r => if s.hasInterval then vaPoll r s else s
  | DEvent.timer => vaTimer s

/-- Run the plain poller over a sequence of events. -/
def vaRun (es : List DEvent) (s : VAState) : VAState :=
  es.foldl (fun s e => vaStep e s) s

/-- State right after the plain pollForToken installs its interval. -/
def vaInit : VAState := { hasInterval := true, requests := 0, settled := none }

/-! ## IPC poller pairing (githubAuth.ts lines 147-216 with
githubHandlers.js lines 70-97)

The renderer loop polls through the github:poll-for-token IPC handler. The
handler performs a single token check and maps the response to
success/token/error; the renderer resolves on success with a token, rejects
whenever success is false, and continues otherwise. -/

/-- The IPC result shape returned by the github:poll-for-token handler. -/
structure IpcResult where
  success : Bool
  token : Option String
  error : Option String
deriving DecidableEq

/-- Model of the github:poll-for-token handler (githubHandlers.js lines
70-97): one fetch; a body with a token yields success, any other body yields
failure with error_description, error or the fixed fallback message (the JS
disjunction of the three, assuming nonempty strings); a thrown fetch yields
failure with the thrown message. The HTTP status is never inspected. -/
def githubPollForTokenHandler (r : FetchOutcome) : IpcResult :=
  match r with
  | FetchOutcome.threw m => { success := false, token := none, error := some m }
  | FetchOutcome.ok _ body =>
    match body.access_token with
    | some t => { success := true, token := some t, error := none }
    | none =>
      { success := false, token := none,
        error := some (body.error_description.getD (body.error.getD "No token received")) }

/-- One execution of the renderer poll closure of the IPC variant: cancelled
check, attempt ceiling, one IPC call, then resolve on success with token,
reject whenever success is false, otherwise continue. -/
def ipcPoll (d : String) (r : FetchOutcome) (s : DPState) : DPState :=
  if s.deviceCode ≠ some d then s
  else
    let s1 := { s with pollCount := s.pollCount + 1 }
    if 180 < s1.pollCount then
      settleOnce (dpStopPolling s1)
        (DOutcome.rejectedErr "Authorization timeout - exceeded maximum polling attempts")
    else
      let s2 := { s1 with requests := s1.requests + 1 }
      let res := githubPollForTokenHandler r
      match res.success, res.token with
      | true, some t => settleOnce (dpStopPolling s2) (DOutcome.resolvedTok t)
      | false, _ => settleOnce (dpStopPolling s2)
          (DOutcome.rejectedErr (res.error.getD "Authorization failed"))
      | true, none => s2

/-- One scheduler step for the IPC poller (same timer as part_004). -/
def ipcStep (d : String) (e : DEvent) (s : DPState) : DPState :=
  match e with
  | DEvent.tick r => if s.hasInterval then ipcPoll d r s else s
  | DEvent.timer => dpTimer d s

/-- Run the IPC poller over a sequence of events. -/
def ipcRun (d : String) (es : List DEvent) (s : DPState) : DPState :=
  es.foldl (fun s e => ipcStep d e s) s

/-! ## Background poller (githubHandlers.js lines 174-264)

backgroundPoll recursively schedules itself with setTimeout. The stop flag
of the polling operation is read at the entry of each poll and again when
scheduling the next poll, but not between dispatching a request and
processing its response. Each poll input bundles the fetch outcome, whether
the subsequent token validation succeeds (only relevant for token
responses), and whether stop() is called while that request is in flight. -/

/-- Events sent to the renderer window by backgroundPoll. -/
inductive BgEvent where
  | authSuccess (token : String)
  | authError (msg : String)
  | authTimeout
deriving DecidableEq

/-- One scripted poll input for backgroundPoll. -/
structure BgInput where
  resp : FetchOutcome
  validationOk : Bool
  stopDuringFlight : Bool
deriving DecidableEq

/-- Run backgroundPoll over scripted inputs, starting from the given stop
flag, poll count and request count; returns the total requests dispatched
and the events sent to the window. The run ends when an event is emitted,
when the stop flag is observed at a poll entry or at a scheduling point, or
when the script is exhausted (operation still waiting). -/
def bgRun : List BgInput → Bool → Nat → Nat → Nat × List BgEvent
  | _, true, _, reqs => (reqs, [])
  | [], false, _, reqs => (reqs, [])
  | i :: rest, false, count, reqs =>
    if 180 < count + 1 then (reqs, [BgEvent.authTimeout])
    else
      let reqs2 := reqs + 1
      let flag2 := i.stopDuringFlight
      match i.resp with
      | FetchOutcome.threw m => (reqs2, [BgEvent.authError m])
      | FetchOutcome.ok _ body =>
        match body.access_token with
        | some t =>
            (reqs2, [if i.validationOk then BgEvent.authSuccess t
                     else BgEvent.authError "Token validation failed"])
        | none =>
          match body.error with
          | some e =>
            if e = "authorization_pending" then
              if flag2 then (reqs2, []) else bgRun rest flag2 (count + 1) reqs2
            else (reqs2, [BgEvent.authError (body.error_description.getD e)])
          | none => if flag2 then (reqs2, []) else bgRun rest flag2 (count + 1) reqs2

/-! ## Main-process polling registry (githubHandlers.js lines 31-67)

currentPolling points at the most recently created polling operation.
github:start-background-polling sets the stop flag of the current operation
before creating a new one; github:stop-polling sets the flag and clears the
pointer. Operations are listed most recent first; each entry is its stop
flag. -/

/-- Registry of created polling operations (head = most recent) and whether
currentPolling is non-null (it then refers to the head). -/
structure MainPollingState where
  ops : List Bool
  hasCur : Bool
deriving DecidableEq

/-- Model of the github:start-background-polling handler body: stop the
current operation when present, then create and start a new one. -/
def startBackgroundPollingCmd (m : MainPollingState) : MainPollingState :=
  match m.hasCur, m.ops with
  | true, _cur :: rest => { ops := false :: true :: rest, hasCur := true }
  | _, ops => { ops := false :: ops, hasCur := true }

/-- Model of the github:stop-polling handler body: when currentPolling is
non-null, set its stop flag and clear the pointer. -/
def stopPollingCmd (m : MainPollingState) : MainPollingState :=
  match m.hasCur, m.ops with
  | true, _cur :: rest => { ops := true :: rest, hasCur := false }
  | _, ops => { ops := ops, hasCur := false }

/-- The polling-related IPC commands reaching the main process. -/
inductive PollCmd where
  | start
  | stop
deriving DecidableEq

/-- Execute a sequence of polling commands. -/
def runPollCmds (cmds : List PollCmd) (m : MainPollingState) : MainPollingState :=
  cmds.foldl (fun m c =>
    match c with
    | PollCmd.start => startBackgroundPollingCmd m
    | PollCmd.stop => stopPollingCmd m) m

/-- Number of operations whose stop flag is still unset. -/
def activeOps (m : MainPollingState) : Nat := m.ops.count false

/-- Main-process state before any polling command. -/
def mainPollingInit : MainPollingState := { ops := [], hasCur := false }

/-! ## Auth store (githubAuthStore.tsx lines 45-194)

The provider state, the connectGitHub entry and checkTokenValidity. -/

/-- The status values of the store (githubAuthStore.tsx line 15). -/
inductive UIStatus where
  | loading
  | disconnected
  | connected
  | invalid
deriving DecidableEq

/-- The GitHubUser record of the store. -/
structure GHUser where
  login : String
  name : String
  avatar_url : String
  html_url : String
deriving DecidableEq

/-- The GitHubAuthState record of the store. -/
structure GitHubAuthState where
  isConnected : Bool
  isLoading : Bool
  status : UIStatus
  user : Option GHUser
  error : Option String
deriving DecidableEq

/-- The initial provider state (githubAuthStore.tsx lines 46-52). -/
def initAuthState : GitHubAuthState :=
  { isConnected := false
    isLoading := true
    status := UIStatus.loading
    user := none
    error := none }

/-- Model of the synchronous entry of connectGitHub (githubAuthStore.tsx
lines 121-127): set isLoading, clear the error, then proceed directly to the
device-code request. The returned flag records that the request is issued;
the source contains no guard on an already connecting state, so the flag is
true from every starting state. -/
def connectGitHubEntry (s : GitHubAuthState) : GitHubAuthState × Bool :=
  ({ s with isLoading := true, error := none }, true)

/-- The resolved value of the githubValidateToken IPC call. -/
structure UserResult where
  success : Bool
  user : Option GHUser
  error : Option String
deriving DecidableEq

/-- Outcome of awaiting the validation call: the promise rejected (landing
in the catch block), or it resolved, possibly to undefined when the electron
bridge is missing. -/
inductive ValidateCall where
  | threw
  | res (r : Option UserResult)

/-- Model of checkTokenValidity (githubAuthStore.tsx lines 78-119): absent
token sets disconnected; a resolved unsuccessful result removes the token
and sets invalid; a success with a user sets connected; a rejection lands in
the catch block, which sets invalid but does not remove the token. -/
def checkTokenValidity (validate : List Nat → ValidateCall) (σ : TokenStorage)
    (st : GitHubAuthState) : TokenStorage × GitHubAuthState :=
  match getStoredToken σ with
  | none =>
      (σ, { st with status := UIStatus.disconnected, isLoading := false, isConnected := false })
  | some tok =>
    match validate tok with
    | ValidateCall.threw =>
        (σ, { st with
              status := UIStatus.invalid
              isConnected := false
              isLoading := false
              error := some "Failed to validate token" })
    | ValidateCall.res none =>
        (removeToken σ,
         { st with
           status := UIStatus.invalid
           isConnected := false
           isLoading := false
           user := none
           error := some "Token expired or invalid" })
    | ValidateCall.res (some r) =>
      match r.success, r.user with
      | true, some u =>
          (σ, { st with
                status := UIStatus.connected
                isConnected := true
                isLoading := false
                user := some u
                error := none })
      | _, _ =>
          (removeToken σ,
           { st with
             status := UIStatus.invalid
             isConnected := false
             isLoading := false
             user := none
             error := some (r.error.getD "Token expired or invalid") })

/-! ## Renderer event service (part_005 lines 22-90, part_001 lines 196-221)

GitHubAuthService keeps a registry of listeners per event name. stopPolling
sends the stop command over IPC when the bridge is available and then emits
github-auth-cancelled unconditionally; cancelAuthentication and logout both
call stopPolling. Callbacks are identified by numbers. -/

/-- The listener registry: event name to registered callback identifiers. -/
def ListenerReg := List (String × List Nat)

/-- The callbacks registered for an event (empty when none). -/
def getListeners (reg : ListenerReg) (ev : String) : List Nat :=
  match reg.lookup ev with
  | some l => l
  | none => []

/-- Model of GitHubAuthService.emit: invoke every callback registered for
the event in order; the result is the list of callbacks invoked. -/
def emitEvent (reg : ListenerReg) (ev : String) : List Nat := getListeners reg ev

/-- Model of the renderer GitHubAuthService.stopPolling (part_005 lines
84-90): send github:stop-polling over IPC when the bridge is available, then
emit github-auth-cancelled unconditionally. Returns the updated main-process
state and the callbacks that received the cancelled event. -/
def stopPollingRenderer (electronAvailable : Bool) (reg : ListenerReg)
    (m : MainPollingState) : MainPollingState × List Nat :=
  ((if electronAvailable then stopPollingCmd m else m),
   emitEvent reg "github-auth-cancelled")

/-- Model of cancelAuthentication (part_001 lines 196-206): stopPolling then
a pure state reset. -/
def cancelAuthentication (ea : Bool) (reg : ListenerReg) (m : MainPollingState) :
    MainPollingState × List Nat :=
  stopPollingRenderer ea reg m

/-- Model of logout (part_001 lines 208-221): stopPolling, remove the stored
token, then a pure state reset. -/
def logoutGitHub (ea : Bool) (reg : ListenerReg) (m : MainPollingState)
    (σ : TokenStorage) : MainPollingState × List Nat × TokenStorage :=
  let p := stopPollingRenderer ea reg m
  (p.1, p.2, removeToken σ)

/-- n successive stopPolling calls; collects each delivery batch. -/
def stopPollingN : Nat → Bool → ListenerReg → MainPollingState →
    MainPollingState × List (List Nat)
  | 0, _, _, m => (m, [])
  | n + 1, ea, reg, m =>
      let p := stopPollingRenderer ea reg m
      let q := stopPollingN n ea reg p.1
      (q.1, p.2 :: q.2)

/-! ## Helper lemmas: base64 and salt handling -/

/-- Decoding an alphabet character recovers the sextet. -/
theorem decChar_b64c : ∀ n, n < 64 → decChar (b64c n) = some n := by decide

/-- No alphabet character is the padding character. -/
theorem b64c_ne_eq : ∀ n, n < 64 → b64c n ≠ 61 := by decide

/-- Base64 round-trip: decoding an encoded byte list (all bytes below 256)
recovers the bytes. -/
theorem decB64_encB64 : ∀ bs : List Nat, (∀ b ∈ bs, b < 256) →
    decB64 (encB64 bs) = some bs
  | [], _ => rfl
  | [b1], h => by
      have hb1 : b1 < 256 := h b1 (by simp)
      have h1 : b1 / 4 < 64 := by omega
      have h2 : b1 % 4 * 16 < 64 := by omega
      simp only [encB64, decB64, List.isEmpty, decChar_b64c _ h1, decChar_b64c _ h2]
      have e1 : b1 % 4 * 16 % 16 = 0 := by omega
      have e2 : b1 / 4 * 4 + b1 % 4 * 16 / 16 = b1 := by omega
      simp [e1, e2]
      all_goals omega
  | [b1, b2], h => by
      have hb1 : b1 < 256 := h b1 (by simp)
      have hb2 : b2 < 256 := h b2 (by simp)
      have h1 : b1 / 4 < 64 := by omega
      have h2 : b1 % 4 * 16 + b2 / 16 < 64 := by omega
      have h3 : b2 % 16 * 4 < 64 := by omega
      have hne : b64c (b2 % 16 * 4) ≠ 61 := b64c_ne_eq _ h3
      simp only [encB64, decB64, List.isEmpty, decChar_b64c _ h1, decChar_b64c _ h2,
        decChar_b64c _ h3]
      have e0 : b2 % 16 * 4 % 4 = 0 := by omega
      have e1 : b1 / 4 * 4 + (b1 % 4 * 16 + b2 / 16) / 16 = b1 := by omega
      have e2 : (b1 % 4 * 16 + b2 / 16) % 16 * 16 + b2 % 16 * 4 / 4 = b2 := by omega
      simp [hne, e0, e1, e2]
      all_goals omega
  | b1 :: b2 :: b3 :: rest, h => by
      have hb1 : b1 < 256 := h b1 (by simp)
      have hb2 : b2 < 256 := h b2 (by simp)
      have hb3 : b3 < 256 := h b3 (by simp)
      have hrest : ∀ b ∈ rest, b < 256 := fun b hb => h b (by simp [hb])
      have h1 : b1 / 4 < 64 := by omega
      have h2 : b1 % 4 * 16 + b2 / 16 < 64 := by omega
      have h3 : b2 % 16 * 4 + b3 / 64 < 64 := by omega
      have h4 : b3 % 64 < 64 := by omega
      have ih := decB64_encB64 rest hrest
      have e1 : b1 / 4 * 4 + (b1 % 4 * 16 + b2 / 16) / 16 = b1 := by omega
      have e2 : (b1 % 4 * 16 + b2 / 16) % 16 * 16 + (b2 % 16 * 4 + b3 / 64) / 4 = b2 := by
        omega
      have e3 : (b2 % 16 * 4 + b3 / 64) % 4 * 64 + b3 % 64 = b3 := by omega
      cases hre : encB64 rest with
      | nil =>
          simp only [encB64, decB64, hre, List.isEmpty]
          have hn3 : b64c (b2 % 16 * 4 + b3 / 64) ≠ 61 := b64c_ne_eq _ h3
          have hn4 : b64c (b3 % 64) ≠ 61 := b64c_ne_eq _ h4
          rw [hre] at ih
          simp only [decB64] at ih
          simp [hn3, hn4, decChar_b64c _ h1, decChar_b64c _ h2, decChar_b64c _ h3,
            decChar_b64c _ h4, e1, e2, e3, ← ih]
          cases rest with
          | nil => simp at ih; simp [ih]
          | cons x xs => simp at ih
      | cons y ys =>
          simp only [encB64, decB64, hre, List.isEmpty]
          rw [hre] at ih
          simp [decChar_b64c _ h1, decChar_b64c _ h2, decChar_b64c _ h3,
            decChar_b64c _ h4, ih, e1, e2, e3]

/-- isPrefixB agrees with existence of a list completion. -/
theorem isPrefixB_iff : ∀ p s : List Nat, isPrefixB p s = true ↔ ∃ r, s = p ++ r
  | [], s => by simp [isPrefixB]
  | p :: ps, [] => by simp [isPrefixB]
  | p :: ps, x :: xs => by
      simp only [isPrefixB, Bool.and_eq_true, beq_iff_eq, isPrefixB_iff ps xs,
        List.cons_append]
      constructor
      · rintro ⟨rfl, r, rfl⟩
        exact ⟨r, rfl⟩
      · rintro ⟨r, he⟩
        cases he
        exact ⟨rfl, r, rfl⟩

/-- The salt has no nontrivial border: no proper nonempty suffix of it equals
a prefix of it of the same length. -/
theorem salt_borderFree : ∀ k, k < 11 → 0 < k →
    List.drop k saltCodes ≠ List.take (11 - k) saltCodes := by decide

/-- If the salt starts the word s ++ salt and s is nonempty, then the salt
already starts s. -/
theorem salt_straddle (s : List Nat) (hs : s ≠ [])
    (h : isPrefixB saltCodes (s ++ saltCodes) = true) :
    isPrefixB saltCodes s = true := by
  have hlen : saltCodes.length = 11 := by decide
  rcases (isPrefixB_iff _ _).1 h with ⟨r, hr⟩
  by_cases hc : 11 ≤ s.length
  · have hsplit : s = List.take 11 s ++ List.drop 11 s := (List.take_append_drop 11 s).symm
    have heq : List.take 11 s ++ (List.drop 11 s ++ saltCodes) = saltCodes ++ r := by
      rw [← List.append_assoc, ← hsplit]
      exact hr
    have hl : (List.take 11 s).length = saltCodes.length := by
      rw [hlen, List.length_take]
      omega
    have := List.append_inj heq hl
    exact (isPrefixB_iff _ _).2 ⟨List.drop 11 s, by rw [← this.1, List.take_append_drop]⟩
  · push_neg at hc
    have hsalt : saltCodes = List.take s.length saltCodes ++ List.drop s.length saltCodes :=
      (List.take_append_drop s.length saltCodes).symm
    have heq : s ++ saltCodes = List.take s.length saltCodes ++
        (List.drop s.length saltCodes ++ r) := by
      rw [← List.append_assoc, ← hsalt]
      exact hr
    have hl : s.length = (List.take s.length saltCodes).length := by
      rw [List.length_take, hlen]
      omega
    have hinj := List.append_inj heq hl
    have hborder : List.drop s.length saltCodes = List.take (11 - s.length) saltCodes := by
      have h2 : saltCodes = List.drop s.length saltCodes ++ r := hinj.2
      have h3 : List.take (11 - s.length) saltCodes =
          List.take (11 - s.length) (List.drop s.length saltCodes ++ r) := by
        rw [← h2]
      have h4 : (List.drop s.length saltCodes).length = 11 - s.length := by
        rw [List.length_drop, hlen]
      rw [h3, ← h4, List.take_left]
    have hpos : 0 < s.length := List.length_pos.2 hs
    exact absurd hborder (salt_borderFree s.length (by omega) hpos)

/-- Removing the first salt occurrence from t ++ salt recovers t whenever the
salt does not occur in t. -/
theorem replaceFirst_append_salt : ∀ t : List Nat, containsB t saltCodes = false →
    replaceFirst (t ++ saltCodes) saltCodes = t
  | [], _ => by decide
  | a :: t, h => by
      have h1 : isPrefixB saltCodes (a :: t) = false := by
        simp only [containsB, Bool.or_eq_false_iff] at h
        exact h.1
      have h2 : containsB t saltCodes = false := by
        simp only [containsB, Bool.or_eq_false_iff] at h
        exact h.2
      have hnp : isPrefixB saltCodes ((a :: t) ++ saltCodes) = false := by
        by_contra hcon
        have htrue : isPrefixB saltCodes ((a :: t) ++ saltCodes) = true := by
          cases hx : isPrefixB saltCodes ((a :: t) ++ saltCodes)
          · exact absurd hx hcon
          · rfl
        have := salt_straddle (a :: t) (by simp) htrue
        rw [this] at h1
        cases h1
      have hstep : replaceFirst ((a :: t) ++ saltCodes) saltCodes =
          a :: replaceFirst (t ++ saltCodes) saltCodes := by
        rw [List.cons_append, replaceFirst]
        rw [List.cons_append] at hnp
        simp [hnp]
      rw [hstep, replaceFirst_append_salt t h2]

/-! ## Claim C8: token store round-trip -/

/-- C8 counterexample: the claim that store followed by retrieve returns
exactly the original token for every token string fails. For the token
a_plynk_saltb, storing then retrieving yields ab_plynk_salt, because
decryptToken removes the FIRST occurrence of the salt from the decoded
string and the first occurrence starts inside the token. -/
theorem C8_roundtrip_counterexample :
    storeToken (str2codes "a_plynk_saltb") =
      some (some (encB64 (str2codes "a_plynk_saltb" ++ saltCodes))) ∧
    getStoredToken (some (encB64 (str2codes "a_plynk_saltb" ++ saltCodes))) =
      some (str2codes "ab_plynk_salt") ∧
    str2codes "ab_plynk_salt" ≠ str2codes "a_plynk_saltb" := by
  refine ⟨by decide, by decide, by decide⟩

/-- C8 amended: for every Latin-1 token in which the salt _plynk_salt does
not occur, store followed by retrieve returns exactly the token; retrieve
after remove returns none; and retrieve of a stored value that is not valid
base64 returns none without raising (a corrupted value that happens to be
valid base64 instead decodes to a garbage token). -/
theorem C8_roundtrip_amended :
    (∀ (t : List Nat) (σ : TokenStorage),
        (∀ b ∈ t, b < 256) → containsB t saltCodes = false →
        storeToken t = some σ → getStoredToken σ = some t) ∧
    (∀ σ : TokenStorage, getStoredToken (removeToken σ) = none) ∧
    (∀ e : List Nat, decB64 e = none → getStoredToken (some e) = none) := by
  refine ⟨?_, ?_, ?_⟩
  · intro t σ hb hnosalt hstore
    have hsaltb : ∀ b ∈ saltCodes, b < 256 := by decide
    have hall : (t ++ saltCodes).all (fun b => b < 256) = true := by
      rw [List.all_eq_true]
      intro b hbmem
      rcases List.mem_append.1 hbmem with h | h
      · simpa using hb b h
      · simpa using hsaltb b h
    have henc : encryptToken t = some (encB64 (t ++ saltCodes)) := by
      simp [encryptToken, hall]
    rw [storeToken, henc] at hstore
    have hσ : σ = some (encB64 (t ++ saltCodes)) := by
      cases hstore
      rfl
    subst hσ
    have hbytes : ∀ b ∈ t ++ saltCodes, b < 256 := by
      intro b hbmem
      rcases List.mem_append.1 hbmem with h | h
      · exact hb b h
      · exact hsaltb b h
    show decryptToken (encB64 (t ++ saltCodes)) = some t
    simp [decryptToken, decB64_encB64 _ hbytes, replaceFirst_append_salt t hnosalt]
  · intro σ
    rfl
  · intro e hcorrupt
    show decryptToken e = none
    rw [decryptToken, hcorrupt]

/-- C8 witness: the amended round-trip at the concrete token tok_abc and the
concrete non-base64 stored value of three percent signs. -/
theorem C8_roundtrip_amended_witness :
    ((∀ b ∈ str2codes "tok_abc", b < 256) ∧
     containsB (str2codes "tok_abc") saltCodes = false ∧
     storeToken (str2codes "tok_abc") =
       some (some (encB64 (str2codes "tok_abc" ++ saltCodes))) ∧
     decB64 (str2codes "%%%") = none) ∧
    getStoredToken (some (encB64 (str2codes "tok_abc" ++ saltCodes))) =
      some (str2codes "tok_abc") ∧
    getStoredToken (removeToken (some (encB64 (str2codes "tok_abc" ++ saltCodes)))) = none ∧
    getStoredToken (some (str2codes "%%%")) = none :=
  ⟨⟨by decide, by decide, by decide, by decide⟩,
   C8_roundtrip_amended.1 (str2codes "tok_abc") _ (by decide) (by decide) (by decide),
   C8_roundtrip_amended.2.1 _,
   C8_roundtrip_amended.2.2 _ (by decide)⟩

/-! ## Claim C9: checkTokenValidity -/

/-- C9 counterexample: the claim that after checkValidity the invalid state
never holds a usable stored credential fails on the catch path. With a valid
stored token and a validation call that rejects, the resulting status is
invalid yet the stored credential is untouched and still decodes to the
original token. -/
theorem C9_checkValidity_counterexample :
    (checkTokenValidity (fun _ => ValidateCall.threw)
        (some (encB64 (str2codes "tok_abc" ++ saltCodes))) initAuthState).2.status =
      UIStatus.invalid ∧
    (checkTokenValidity (fun _ => ValidateCall.threw)
        (some (encB64 (str2codes "tok_abc" ++ saltCodes))) initAuthState).1 =
      some (encB64 (str2codes "tok_abc" ++ saltCodes)) ∧
    getStoredToken
        ((checkTokenValidity (fun _ => ValidateCall.threw)
            (some (encB64 (str2codes "tok_abc" ++ saltCodes))) initAuthState).1) =
      some (str2codes "tok_abc") := by
  refine ⟨by decide, by decide, by decide⟩

/-- C9 amended: when the validation call resolves (does not reject), an
absent credential yields disconnected, a rejected credential is cleared with
status invalid, a successful validation yields connected with the fetched
user, and afterwards the invalid and disconnected states hold no stored
credential; when the validation call rejects, the status is invalid but the
credential is retained. -/
theorem C9_checkValidity_amended :
    ∀ (validate : List Nat → ValidateCall) (σ : TokenStorage) (st : GitHubAuthState),
    (∀ t, validate t ≠ ValidateCall.threw) →
    (getStoredToken σ = none →
      checkTokenValidity validate σ st =
        (σ, { st with
              status := UIStatus.disconnected
              isLoading := false
              isConnected := false })) ∧
    (∀ tok, getStoredToken σ = some tok →
      (validate tok = ValidateCall.res none ∨
        ∃ r, validate tok = ValidateCall.res (some r) ∧
          (r.success = false ∨ r.user = none)) →
      (checkTokenValidity validate σ st).1 = none ∧
      (checkTokenValidity validate σ st).2.status = UIStatus.invalid) ∧
    (∀ tok r u, getStoredToken σ = some tok →
      validate tok = ValidateCall.res (some r) → r.success = true → r.user = some u →
      (checkTokenValidity validate σ st).2.status = UIStatus.connected ∧
      (checkTokenValidity validate σ st).2.user = some u ∧
      (checkTokenValidity validate σ st).1 = σ) ∧
    ((checkTokenValidity validate σ st).2.status = UIStatus.invalid ∨
     (checkTokenValidity validate σ st).2.status = UIStatus.disconnected →
      getStoredToken ((checkTokenValidity validate σ st).1) = none) := by
  intro validate σ st hnothrow
  refine ⟨?_, ?_, ?_, ?_⟩
  · intro h
    simp [checkTokenValidity, h]
  · intro tok hσ hbad
    rcases hbad with hv | ⟨r, hv, hbadr⟩
    · simp [checkTokenValidity, hσ, hv, removeToken]
    · rcases hbadr with hs | hu
      · cases hru : r.user <;>
          simp [checkTokenValidity, hσ, hv, hs, hru, removeToken]
      · cases hsu : r.success <;>
          simp [checkTokenValidity, hσ, hv, hu, hsu, removeToken]
  · intro tok r u hσ hv hs hu
    simp [checkTokenValidity, hσ, hv, hs, hu]
  · cases hσ : getStoredToken σ with
    | none =>
        intro _
        simp [checkTokenValidity, hσ]
    | some tok =>
        cases hv : validate tok with
        | threw => exact absurd hv (hnothrow tok)
        | res r =>
          cases r with
          | none =>
              intro _
              simp only [checkTokenValidity, hσ, hv, removeToken]
              rfl
          | some ur =>
              cases hsu : ur.success with
              | true =>
                  cases hru : ur.user with
                  | some u =>
                      intro hst
                      simp [checkTokenValidity, hσ, hv, hsu, hru] at hst
                  | none =>
                      intro _
                      simp only [checkTokenValidity, hσ, hv, hsu, hru, removeToken]
                      rfl
              | false =>
                  intro _
                  cases hru : ur.user <;>
                    first
                      | (simp only [checkTokenValidity, hσ, hv, hsu, hru, removeToken]
                         rfl)

/-- C9 witness: the amended claim applied to a never-rejecting validator, a
stored tok_abc credential and a successful validation returning a concrete
user; the connected conjunct is obtained from the theorem. -/
theorem C9_checkValidity_amended_witness :
    ((∀ t, (fun _ => ValidateCall.res (some ⟨true, some ⟨"octocat", "The Octocat", "a", "h"⟩, none⟩) : List Nat → ValidateCall) t ≠ ValidateCall.threw) ∧
     getStoredToken (some (encB64 (str2codes "tok_abc" ++ saltCodes))) =
       some (str2codes "tok_abc")) ∧
    ((checkTokenValidity
        (fun _ => ValidateCall.res (some ⟨true, some ⟨"octocat", "The Octocat", "a", "h"⟩, none⟩))
        (some (encB64 (str2codes "tok_abc" ++ saltCodes))) initAuthState).2.status =
      UIStatus.connected ∧
     (checkTokenValidity
        (fun _ => ValidateCall.res (some ⟨true, some ⟨"octocat", "The Octocat", "a", "h"⟩, none⟩))
        (some (encB64 (str2codes "tok_abc" ++ saltCodes))) initAuthState).2.user =
      some ⟨"octocat", "The Octocat", "a", "h"⟩ ∧
     (checkTokenValidity
        (fun _ => ValidateCall.res (some ⟨true, some ⟨"octocat", "The Octocat", "a", "h"⟩, none⟩))
        (some (encB64 (str2codes "tok_abc" ++ saltCodes))) initAuthState).1 =
      some (encB64 (str2codes "tok_abc" ++ saltCodes))) := by
  refine ⟨⟨?_, by decide⟩, ?_⟩
  · intro t h
    exact ValidateCall.noConfusion h
  · exact (C9_checkValidity_amended
      (fun _ => ValidateCall.res (some ⟨true, some ⟨"octocat", "The Octocat", "a", "h"⟩, none⟩))
      (some (encB64 (str2codes "tok_abc" ++ saltCodes))) initAuthState
      (fun _ h => ValidateCall.noConfusion h)).2.2.1
      (str2codes "tok_abc") ⟨true, some ⟨"octocat", "The Octocat", "a", "h"⟩, none⟩
      ⟨"octocat", "The Octocat", "a", "h"⟩ (by decide) rfl rfl rfl

/-! ## Helper lemmas: direct-fetch poller (part_004) -/

/-- A step of the direct poller leaves a stopped operation unchanged. -/
theorem dpStep_absorbed (d : String) (e : DEvent) (s : DPState)
    (h1 : s.hasInterval = false) (h2 : s.deviceCode = none) : dpStep d e s = s := by
  cases e with
  | tick r => simp [dpStep, h1]
  | timer => simp [dpStep, dpTimer, h2]

/-- A run of the direct poller leaves a stopped operation unchanged. -/
theorem dpRun_absorbed (d : String) (es : List DEvent) (s : DPState)
    (h1 : s.hasInterval = false) (h2 : s.deviceCode = none) : dpRun d es s = s := by
  induction es with
  | nil => rfl
  | cons e es ih =>
      show dpRun d es (dpStep d e s) = s
      rw [dpStep_absorbed d e s h1 h2]
      exact ih

/-- Runs compose over appended event lists. -/
theorem dpRun_append (d : String) (a b : List DEvent) (s : DPState) :
    dpRun d (a ++ b) s = dpRun d b (dpRun d a s) := by
  simp [dpRun, List.foldl_append]

/-- A run unfolds one event at a time. -/
theorem dpRun_cons (d : String) (e : DEvent) (es : List DEvent) (s : DPState) :
    dpRun d (e :: es) s = dpRun d es (dpStep d e s) := rfl

/-- Authorization-pending ticks advance the attempt and request counters and
change nothing else, while the ceiling is not reached. -/
theorem dpRun_pending (d : String) : ∀ (k c : Nat), c + k ≤ 180 →
    dpRun d (List.replicate k (DEvent.tick pendingResp))
      { deviceCode := some d, hasInterval := true, pollCount := c, requests := c,
        settled := none } =
      { deviceCode := some d, hasInterval := true, pollCount := c + k, requests := c + k,
        settled := none }
  | 0, c, _ => by simp [dpRun]
  | k + 1, c, h => by
      have hc : ¬ (180 < c + 1) := by omega
      have hstep : dpStep d (DEvent.tick pendingResp)
          { deviceCode := some d, hasInterval := true, pollCount := c, requests := c,
            settled := none } =
          { deviceCode := some d, hasInterval := true, pollCount := c + 1,
            requests := c + 1, settled := none } := by
        simp [dpStep, dpPoll, pendingResp, pendingBody, hc]
      have hrest := dpRun_pending d k (c + 1) (by omega)
      rw [List.replicate_succ]
      show dpRun d (List.replicate k (DEvent.tick pendingResp))
        (dpStep d (DEvent.tick pendingResp) _) = _
      rw [hstep, hrest]
      have : c + 1 + k = c + (k + 1) := by omega
      rw [this]

/-! ## Claim C2: slow_down handling -/

/-- C2: the code contradicts the claim. On a slow_down response the part_004
poller stops polling and rejects with the slow-down message after a single
request; no further event has any effect. The claim and the spec require
polling to continue with an increased interval. -/
theorem C2_slow_down_terminates : ∀ rest : List DEvent,
    dpRun "D1" (DEvent.tick slowDownResp :: rest) (dpInit "D1") =
      { deviceCode := none, hasInterval := false, pollCount := 1, requests := 1,
        settled := some
          (DOutcome.rejectedErr "Polling too frequently. Please wait and try again.") } := by
  intro rest
  show dpRun "D1" rest (dpStep "D1" (DEvent.tick slowDownResp) (dpInit "D1")) = _
  have hstep : dpStep "D1" (DEvent.tick slowDownResp) (dpInit "D1") =
      { deviceCode := none, hasInterval := false, pollCount := 1, requests := 1,
        settled := some
          (DOutcome.rejectedErr "Polling too frequently. Please wait and try again.") } := by
    decide
  rw [hstep]
  exact dpRun_absorbed _ _ _ rfl rfl

/-! ## Claim C6: timeout ceilings -/

/-- A run of the plain poller unfolds one event at a time. -/
theorem vaRun_cons (e : DEvent) (es : List DEvent) (s : VAState) :
    vaRun (e :: es) s = vaRun es (vaStep e s) := rfl

/-- Runs of the plain poller compose over appended event lists. -/
theorem vaRun_append (a b : List DEvent) (s : VAState) :
    vaRun (a ++ b) s = vaRun b (vaRun a s) := by
  simp [vaRun, List.foldl_append]

/-- In the plain variant authorization-pending ticks advance the request
counter without bound: there is no attempt ceiling and nothing else
changes. -/
theorem vaRun_pending : ∀ (k c : Nat),
    vaRun (List.replicate k (DEvent.tick pendingResp))
      { hasInterval := true, requests := c, settled := none } =
      { hasInterval := true, requests := c + k, settled := none }
  | 0, c => by simp [vaRun]
  | k + 1, c => by
      have hstep : vaStep (DEvent.tick pendingResp)
          { hasInterval := true, requests := c, settled := none } =
          { hasInterval := true, requests := c + 1, settled := none } := by
        simp [vaStep, vaPoll, pendingResp, pendingBody]
      rw [List.replicate_succ, vaRun_cons, hstep, vaRun_pending k (c + 1)]
      have : c + 1 + k = c + (k + 1) := by omega
      rw [this]

/-- A step of the plain poller leaves a settled operation whose interval is
cleared unchanged. -/
theorem vaStep_inert (e : DEvent) (s : VAState) (x : DOutcome)
    (h1 : s.hasInterval = false) (h2 : s.settled = some x) : vaStep e s = s := by
  cases e with
  | tick r => simp [vaStep, h1]
  | timer =>
      show vaSettle { s with hasInterval := false } _ = s
      have hs : ({ s with hasInterval := false } : VAState) = s := by
        cases s
        simp_all
      rw [hs]
      simp [vaSettle, h2]

/-- A run of the plain poller leaves a settled operation whose interval is
cleared unchanged. -/
theorem vaRun_inert (es : List DEvent) (s : VAState) (x : DOutcome)
    (h1 : s.hasInterval = false) (h2 : s.settled = some x) : vaRun es s = s := by
  induction es with
  | nil => rfl
  | cons e es ih =>
      rw [vaRun_cons, vaStep_inert e s x h1 h2]
      exact ih

/-- C6 counterexample: the claim also cites the plain pollForToken variant,
which has no attempt-count ceiling at all: after 181 consecutive
authorization_pending responses (the 15-minute timer not yet fired) it has
dispatched 181 token-exchange requests and emitted no timeout, so the
attempt ceiling of 180 is not an independently enforced stop condition on
that cited source. -/
theorem C6_no_ceiling_counterexample :
    vaRun (List.replicate 181 (DEvent.tick pendingResp)) vaInit =
      { hasInterval := true, requests := 181, settled := none } := by
  have h := vaRun_pending 181 0
  simpa using h

/-- C6 amended: in the part_004 poller both stop conditions hold: with only
authorization_pending responses it stops with the attempt-ceiling timeout
rejection on the 181st tick, having issued exactly 180 requests and none
thereafter, and independently the 15-minute timer fired after k pending
ticks stops the operation with the wall-clock timeout rejection, having
issued exactly k requests and none thereafter, the promise settling exactly
once. The plain variant has no attempt ceiling: only the 15-minute timer
ends it, after any number k of pending polls, with exactly one timeout
rejection, exactly k requests and none thereafter. -/
theorem C6_timeout_ceilings :
    (∀ (d : String) (n : Nat) (rest : List DEvent), 181 ≤ n →
      dpRun d (List.replicate n (DEvent.tick pendingResp) ++ rest) (dpInit d) =
        { deviceCode := none, hasInterval := false, pollCount := 181, requests := 180,
          settled := some (DOutcome.rejectedErr
            "Authorization timeout - exceeded maximum polling attempts") }) ∧
    (∀ (d : String) (k : Nat) (rest : List DEvent), k ≤ 180 →
      dpRun d (List.replicate k (DEvent.tick pendingResp) ++ DEvent.timer :: rest)
          (dpInit d) =
        { deviceCode := none, hasInterval := false, pollCount := k, requests := k,
          settled := some (DOutcome.rejectedErr "Authorization timeout") }) ∧
    (∀ (k : Nat) (rest : List DEvent),
      vaRun (List.replicate k (DEvent.tick pendingResp) ++ DEvent.timer :: rest)
          vaInit =
        { hasInterval := false, requests := k,
          settled := some (DOutcome.rejectedErr "Authorization timeout") }) := by
  refine ⟨?_, ?_, ?_⟩
  · intro d n rest hn
    have hsplit : List.replicate n (DEvent.tick pendingResp) =
        List.replicate 180 (DEvent.tick pendingResp) ++
        DEvent.tick pendingResp :: List.replicate (n - 181) (DEvent.tick pendingResp) := by
      rw [← List.replicate_succ, ← List.replicate_add]
      congr 1
      omega
    rw [hsplit, List.append_assoc, dpRun_append]
    have h180 := dpRun_pending d 180 0 (by omega)
    simp only [Nat.zero_add] at h180
    have hinit : dpInit d =
        { deviceCode := some d, hasInterval := true, pollCount := 0, requests := 0,
          settled := none } := rfl
    rw [hinit, h180, List.cons_append, dpRun_cons]
    have hstep : dpStep d (DEvent.tick pendingResp)
        { deviceCode := some d, hasInterval := true, pollCount := 180, requests := 180,
          settled := none } =
        { deviceCode := none, hasInterval := false, pollCount := 181, requests := 180,
          settled := some (DOutcome.rejectedErr
            "Authorization timeout - exceeded maximum polling attempts") } := by
      simp [dpStep, dpPoll, settleOnce, dpStopPolling]
    rw [hstep]
    exact dpRun_absorbed _ _ _ rfl rfl
  · intro d k rest hk
    rw [dpRun_append]
    have hpend := dpRun_pending d k 0 (by omega)
    simp only [Nat.zero_add] at hpend
    have hinit : dpInit d =
        { deviceCode := some d, hasInterval := true, pollCount := 0, requests := 0,
          settled := none } := rfl
    rw [hinit, hpend]
    show dpRun d rest (dpStep d DEvent.timer _) = _
    have hstep : dpStep d DEvent.timer
        { deviceCode := some d, hasInterval := true, pollCount := k, requests := k,
          settled := none } =
        { deviceCode := none, hasInterval := false, pollCount := k, requests := k,
          settled := some (DOutcome.rejectedErr "Authorization timeout") } := by
      simp [dpStep, dpTimer, settleOnce, dpStopPolling]
    rw [hstep]
    exact dpRun_absorbed _ _ _ rfl rfl
  · intro k rest
    rw [vaRun_append]
    have hinit : vaInit =
        { hasInterval := true, requests := 0, settled := none } := rfl
    rw [hinit, vaRun_pending k 0]
    simp only [Nat.zero_add]
    rw [vaRun_cons]
    have hstep : vaStep DEvent.timer
        { hasInterval := true, requests := k, settled := none } =
        { hasInterval := false, requests := k,
          settled := some (DOutcome.rejectedErr "Authorization timeout") } := by
      simp [vaStep, vaTimer, vaSettle]
    rw [hstep]
    exact vaRun_inert _ _ _ rfl rfl

/-- C6 witness: the part_004 ceiling conjunct at 181 pending ticks, the
part_004 timer conjunct with the timer firing immediately, and the plain
variant timer conjunct after two pending polls. -/
theorem C6_timeout_ceilings_witness :
    (181 ≤ 181 ∧ (0 : Nat) ≤ 180) ∧
    dpRun "D1" (List.replicate 181 (DEvent.tick pendingResp) ++ []) (dpInit "D1") =
      { deviceCode := none, hasInterval := false, pollCount := 181, requests := 180,
        settled := some (DOutcome.rejectedErr
          "Authorization timeout - exceeded maximum polling attempts") } ∧
    dpRun "D1" (List.replicate 0 (DEvent.tick pendingResp) ++ DEvent.timer :: [])
        (dpInit "D1") =
      { deviceCode := none, hasInterval := false, pollCount := 0, requests := 0,
        settled := some (DOutcome.rejectedErr "Authorization timeout") } ∧
    vaRun (List.replicate 2 (DEvent.tick pendingResp) ++ DEvent.timer :: []) vaInit =
      { hasInterval := false, requests := 2,
        settled := some (DOutcome.rejectedErr "Authorization timeout") } :=
  ⟨⟨by decide, by decide⟩,
   C6_timeout_ceilings.1 "D1" 181 [] (by decide),
   C6_timeout_ceilings.2.1 "D1" 0 [] (by decide),
   C6_timeout_ceilings.2.2 2 []⟩

/-! ## Claim C7: HTTP 429 handling -/

/-- C7 counterexample: the background poller never inspects the HTTP status,
so a 429 response whose body carries neither token nor error does not
terminate polling: after two such responses the poller has issued two
requests and emitted no rate-limit (or any) event, contradicting immediate
termination after the first 429. -/
theorem C7_429_counterexample :
    bgRun [{ resp := FetchOutcome.ok 429 emptyBody, validationOk := true,
             stopDuringFlight := false },
           { resp := FetchOutcome.ok 429 emptyBody, validationOk := true,
             stopDuringFlight := false }] false 0 0 = (2, []) := by decide

/-- C7 amended: the part_004 direct-fetch poller terminates immediately on an
HTTP 429 response regardless of the response body, rejecting once with the
rate-limit message after exactly one request and issuing none thereafter;
the background poller instead ignores the status code and reacts only to the
body. -/
theorem C7_429_amended : ∀ (d : String) (body : TokenBody) (rest : List DEvent),
    dpRun d (DEvent.tick (FetchOutcome.ok 429 body) :: rest) (dpInit d) =
      { deviceCode := none, hasInterval := false, pollCount := 1, requests := 1,
        settled := some (DOutcome.rejectedErr
          "Too many requests to GitHub. Please wait a few minutes and try again.") } := by
  intro d body rest
  show dpRun d rest (dpStep d (DEvent.tick (FetchOutcome.ok 429 body)) (dpInit d)) = _
  have hstep : dpStep d (DEvent.tick (FetchOutcome.ok 429 body)) (dpInit d) =
      { deviceCode := none, hasInterval := false, pollCount := 1, requests := 1,
        settled := some (DOutcome.rejectedErr
          "Too many requests to GitHub. Please wait a few minutes and try again.") } := by
    simp [dpStep, dpPoll, dpInit, settleOnce, dpStopPolling]
  rw [hstep]
  exact dpRun_absorbed _ _ _ rfl rfl

/-! ## Helper lemmas: settlements are final -/

/-- settleOnce never changes an existing settlement. -/
theorem settleOnce_some (s : DPState) (o x : DOutcome) (h : s.settled = some x) :
    (settleOnce s o).settled = some x := by
  simp [settleOnce, h]

/-- The part_004 poll closure never changes an existing settlement. -/
theorem dpPoll_settled (d : String) (r : FetchOutcome) (s : DPState) (x : DOutcome)
    (h : s.settled = some x) : (dpPoll d r s).settled = some x := by
  unfold dpPoll
  repeat' split
  all_goals simp [settleOnce, dpStopPolling, h]
  all_goals split <;> rfl

/-- The part_004 timer never changes an existing settlement. -/
theorem dpTimer_settled (d : String) (s : DPState) (x : DOutcome)
    (h : s.settled = some x) : (dpTimer d s).settled = some x := by
  unfold dpTimer
  split
  · simp [settleOnce, dpStopPolling, h]
  · exact h

/-- vaSettle never changes an existing settlement. -/
theorem vaSettle_some (s : VAState) (o x : DOutcome) (h : s.settled = some x) :
    (vaSettle s o).settled = some x := by
  simp [vaSettle, h]

/-- The plain poll closure never changes an existing settlement. -/
theorem vaPoll_settled (r : FetchOutcome) (s : VAState) (x : DOutcome)
    (h : s.settled = some x) : (vaPoll r s).settled = some x := by
  unfold vaPoll
  repeat' split
  all_goals simp [vaSettle, h]

/-! ## Claim C3: single terminal resolution and state clearing on success -/

/-- C3 counterexample: the plain variant does not clear its interval on
token_received, so the poll request of the next tick is still issued: after
a token response followed by one more tick, two requests have been dispatched
although the promise resolved at the first, contradicting that no further
poll request is issued after the success. -/
theorem C3_success_counterexample :
    vaRun [DEvent.tick tokenResp, DEvent.tick pendingResp] vaInit =
      { hasInterval := true, requests := 2,
        settled := some (DOutcome.resolvedTok "tok_abc") } := by decide

/-- C3 amended: in both the part_004 poller and the plain variant a settled
promise never changes again, so at most one terminal resolution is delivered;
and in the part_004 poller a token response clears the polling state and no
request is issued by any later event. In the plain variant, poll requests
keep being issued after the success until the 15-minute timer. -/
theorem C3_single_resolution_amended :
    (∀ (d : String) (e : DEvent) (s : DPState) (x : DOutcome),
        s.settled = some x → (dpStep d e s).settled = some x) ∧
    (∀ (e : DEvent) (s : VAState) (x : DOutcome),
        s.settled = some x → (vaStep e s).settled = some x) ∧
    (∀ (d : String) (n : Nat) (rest : List DEvent), n ≤ 179 →
        dpRun d (List.replicate n (DEvent.tick pendingResp) ++
            DEvent.tick tokenResp :: rest) (dpInit d) =
          { deviceCode := none, hasInterval := false, pollCount := n + 1,
            requests := n + 1, settled := some (DOutcome.resolvedTok "tok_abc") }) := by
  refine ⟨?_, ?_, ?_⟩
  · intro d e s x h
    cases e with
    | tick r =>
        show (if s.hasInterval then dpPoll d r s else s).settled = some x
        split
        · exact dpPoll_settled d r s x h
        · exact h
    | timer => exact dpTimer_settled d s x h
  · intro e s x h
    cases e with
    | tick r =>
        show (if s.hasInterval then vaPoll r s else s).settled = some x
        split
        · exact vaPoll_settled r s x h
        · exact h
    | timer =>
        show (vaSettle { s with hasInterval := false } _).settled = some x
        exact vaSettle_some _ _ x h
  · intro d n rest hn
    rw [dpRun_append]
    have hpend := dpRun_pending d n 0 (by omega)
    simp only [Nat.zero_add] at hpend
    have hinit : dpInit d =
        { deviceCode := some d, hasInterval := true, pollCount := 0, requests := 0,
          settled := none } := rfl
    rw [hinit, hpend, dpRun_cons]
    have hc : ¬ (180 < n + 1) := by omega
    have hstep : dpStep d (DEvent.tick tokenResp)
        { deviceCode := some d, hasInterval := true, pollCount := n, requests := n,
          settled := none } =
        { deviceCode := none, hasInterval := false, pollCount := n + 1,
          requests := n + 1, settled := some (DOutcome.resolvedTok "tok_abc") } := by
      simp [dpStep, dpPoll, tokenResp, tokenBody, hc, settleOnce, dpStopPolling]
    rw [hstep]
    exact dpRun_absorbed _ _ _ rfl rfl

/-- C3 witness: settlement preservation at concrete settled states, and the
part_004 success run after three pending responses. -/
theorem C3_single_resolution_amended_witness :
    (((⟨none, false, 1, 1, some (DOutcome.resolvedTok "x")⟩ : DPState).settled =
        some (DOutcome.resolvedTok "x")) ∧
     ((⟨true, 1, some (DOutcome.resolvedTok "x")⟩ : VAState).settled =
        some (DOutcome.resolvedTok "x")) ∧
     (3 : Nat) ≤ 179) ∧
    (dpStep "D1" DEvent.timer ⟨none, false, 1, 1, some (DOutcome.resolvedTok "x")⟩).settled =
      some (DOutcome.resolvedTok "x") ∧
    (vaStep DEvent.timer ⟨true, 1, some (DOutcome.resolvedTok "x")⟩).settled =
      some (DOutcome.resolvedTok "x") ∧
    dpRun "D1" (List.replicate 3 (DEvent.tick pendingResp) ++
        DEvent.tick tokenResp :: []) (dpInit "D1") =
      { deviceCode := none, hasInterval := false, pollCount := 4, requests := 4,
        settled := some (DOutcome.resolvedTok "tok_abc") } :=
  ⟨⟨rfl, rfl, by decide⟩,
   C3_single_resolution_amended.1 "D1" DEvent.timer _ _ rfl,
   C3_single_resolution_amended.2.1 DEvent.timer _ _ rfl,
   C3_single_resolution_amended.2.2 "D1" 3 [] (by decide)⟩

/-! ## Claim C1: the IPC poller pairing on pending responses -/

/-- A step of the IPC poller leaves a stopped operation unchanged. -/
theorem ipcStep_absorbed (d : String) (e : DEvent) (s : DPState)
    (h1 : s.hasInterval = false) (h2 : s.deviceCode = none) : ipcStep d e s = s := by
  cases e with
  | tick r => simp [ipcStep, h1]
  | timer => simp [ipcStep, dpTimer, h2]

/-- A run of the IPC poller leaves a stopped operation unchanged. -/
theorem ipcRun_absorbed (d : String) (es : List DEvent) (s : DPState)
    (h1 : s.hasInterval = false) (h2 : s.deviceCode = none) : ipcRun d es s = s := by
  induction es with
  | nil => rfl
  | cons e es ih =>
      show ipcRun d es (ipcStep d e s) = s
      rw [ipcStep_absorbed d e s h1 h2]
      exact ih

/-- C1: the code contradicts the claim on the cited IPC path. The
github:poll-for-token handler classifies an authorization_pending body as a
failed result, and the renderer loop rejects whenever the result is not a
success, so the first pending response terminates the operation with an
error after exactly one request: the subsequent token response is never
requested and no success is ever delivered. -/
theorem C1_ipc_pending_rejects : ∀ rest : List DEvent,
    ipcRun "D1" (DEvent.tick pendingResp :: DEvent.tick tokenResp :: rest)
        (dpInit "D1") =
      { deviceCode := none, hasInterval := false, pollCount := 1, requests := 1,
        settled := some (DOutcome.rejectedErr "authorization_pending") } := by
  intro rest
  show ipcRun "D1" (DEvent.tick tokenResp :: rest)
    (ipcStep "D1" (DEvent.tick pendingResp) (dpInit "D1")) = _
  have hstep : ipcStep "D1" (DEvent.tick pendingResp) (dpInit "D1") =
      { deviceCode := none, hasInterval := false, pollCount := 1, requests := 1,
        settled := some (DOutcome.rejectedErr "authorization_pending") } := by decide
  rw [hstep]
  exact ipcRun_absorbed _ _ _ rfl rfl

/-! ## Claim C4: cooperative cancellation of the background poller -/

/-- C4 counterexample: stop() set while request 1 is in flight does not
discard the token response: backgroundPoll processes it without rechecking
the stop flag and still sends the success event after the cancellation. -/
theorem C4_inflight_counterexample :
    bgRun [{ resp := tokenResp, validationOk := true, stopDuringFlight := true }]
        false 0 0 = (1, [BgEvent.authSuccess "tok_abc"]) := by decide

/-- C4 amended: once the stop flag is observed at the entry of a poll
iteration, no request is issued and no event is delivered from then on; a
pending response whose request was in flight when stop() was set is the last
request, delivers no event and schedules no further poll; but a success (or
error) response already in flight when stop() is set is still processed and
its event is still delivered. -/
theorem C4_cancellation_amended :
    (∀ (inputs : List BgInput) (c r : Nat), bgRun inputs true c r = (r, [])) ∧
    (∀ (rest : List BgInput) (c r : Nat), c ≤ 179 →
        bgRun ({ resp := pendingResp, validationOk := true, stopDuringFlight := true } ::
          rest) false c r = (r + 1, [])) ∧
    (∀ (rest : List BgInput) (c r : Nat), c ≤ 179 →
        bgRun ({ resp := tokenResp, validationOk := true, stopDuringFlight := true } ::
          rest) false c r = (r + 1, [BgEvent.authSuccess "tok_abc"])) := by
  refine ⟨?_, ?_, ?_⟩
  · intro inputs c r
    cases inputs <;> simp [bgRun]
  · intro rest c r hc
    have h : ¬ (180 < c + 1) := by omega
    simp [bgRun, h, pendingResp, pendingBody]
  · intro rest c r hc
    have h : ¬ (180 < c + 1) := by omega
    simp [bgRun, h, tokenResp, tokenBody]

/-- C4 witness: the amended claim at concrete counts with an empty tail. -/
theorem C4_cancellation_amended_witness :
    ((0 : Nat) ≤ 179 ∧ (0 : Nat) ≤ 179) ∧
    bgRun [] true 0 0 = (0, []) ∧
    bgRun [{ resp := pendingResp, validationOk := true, stopDuringFlight := true }]
        false 0 0 = (1, []) ∧
    bgRun [{ resp := tokenResp, validationOk := true, stopDuringFlight := true }]
        false 0 0 = (1, [BgEvent.authSuccess "tok_abc"]) :=
  ⟨⟨by decide, by decide⟩,
   C4_cancellation_amended.1 [] 0 0,
   C4_cancellation_amended.2.1 [] 0 0 (by decide),
   C4_cancellation_amended.2.2 [] 0 0 (by decide)⟩

/-! ## Claim C5: connect-level guard and single-flight -/

/-- C5 counterexample: connectGitHub has no guard on an already connecting
state. Starting from the initial state, a first connect puts the store in
the loading state and issues the device-code request, and a second connect
invoked in that state also issues the device-code request — two
DeviceFlowClient requests instead of a warned no-op. -/
theorem C5_connect_counterexample :
    ((connectGitHubEntry initAuthState).2 = true) ∧
    ((connectGitHubEntry initAuthState).1.isLoading = true) ∧
    ((connectGitHubEntry (connectGitHubEntry initAuthState).1).2 = true) := by
  refine ⟨rfl, rfl, rfl⟩

/-- The start command preserves the registry invariant: every operation but
the head is stopped, and when currentPolling is null the head is stopped
too. -/
theorem startCmd_inv : ∀ m : MainPollingState,
    m.ops.tail.count false = 0 → (m.hasCur = false → m.ops.count false = 0) →
    (startBackgroundPollingCmd m).ops.tail.count false = 0 ∧
    ((startBackgroundPollingCmd m).hasCur = false →
      (startBackgroundPollingCmd m).ops.count false = 0)
  | ⟨[], false⟩, _, _ => by simp [startBackgroundPollingCmd]
  | ⟨[], true⟩, _, _ => by simp [startBackgroundPollingCmd]
  | ⟨a :: t, false⟩, _, h2 => by
      refine ⟨?_, by simp [startBackgroundPollingCmd]⟩
      have := h2 rfl
      simp [startBackgroundPollingCmd] at this ⊢
      omega
  | ⟨a :: t, true⟩, h1, _ => by
      refine ⟨?_, by simp [startBackgroundPollingCmd]⟩
      simp [startBackgroundPollingCmd] at h1 ⊢
      omega

/-- The stop command preserves the registry invariant. -/
theorem stopCmd_inv : ∀ m : MainPollingState,
    m.ops.tail.count false = 0 → (m.hasCur = false → m.ops.count false = 0) →
    (stopPollingCmd m).ops.tail.count false = 0 ∧
    ((stopPollingCmd m).hasCur = false → (stopPollingCmd m).ops.count false = 0)
  | ⟨[], false⟩, _, _ => by simp [stopPollingCmd]
  | ⟨[], true⟩, _, _ => by simp [stopPollingCmd]
  | ⟨a :: t, false⟩, h1, h2 => by
      have := h2 rfl
      refine ⟨by simpa [stopPollingCmd] using h1, ?_⟩
      intro _
      simpa [stopPollingCmd] using this
  | ⟨a :: t, true⟩, h1, _ => by
      refine ⟨?_, ?_⟩
      · simpa [stopPollingCmd] using h1
      · intro _
        simp [stopPollingCmd] at h1 ⊢
        omega

/-- The registry invariant holds along every command sequence. -/
theorem runPollCmds_inv : ∀ (cmds : List PollCmd) (m : MainPollingState),
    m.ops.tail.count false = 0 → (m.hasCur = false → m.ops.count false = 0) →
    (runPollCmds cmds m).ops.tail.count false = 0 ∧
    ((runPollCmds cmds m).hasCur = false → (runPollCmds cmds m).ops.count false = 0)
  | [], _, h1, h2 => ⟨h1, h2⟩
  | PollCmd.start :: cmds, m, h1, h2 => by
      have hs := startCmd_inv m h1 h2
      exact runPollCmds_inv cmds (startBackgroundPollingCmd m) hs.1 hs.2
  | PollCmd.stop :: cmds, m, h1, h2 => by
      have hs := stopCmd_inv m h1 h2
      exact runPollCmds_inv cmds (stopPollingCmd m) hs.1 hs.2

/-- C5 amended: connect() is not guarded — a connect() issued while already
connecting issues another device-code request (see the counterexample) — but
single-flight holds at the polling level: after any sequence of
start-background-polling and stop-polling commands, at most one polling
operation has its stop flag unset. -/
theorem C5_single_flight_amended : ∀ cmds : List PollCmd,
    activeOps (runPollCmds cmds mainPollingInit) ≤ 1 := by
  intro cmds
  obtain ⟨h1, h2⟩ := runPollCmds_inv cmds mainPollingInit rfl (fun _ => rfl)
  cases hops : (runPollCmds cmds mainPollingInit).ops with
  | nil => simp [activeOps, hops]
  | cons a t =>
      have ht : t.count false = 0 := by
        rw [hops] at h1
        simpa using h1
      cases a <;> simp [activeOps, hops, List.count_cons, ht]

/-! ## Claim C10: stopPolling always emits the cancelled event -/

/-- C10: the renderer stopPolling emits github-auth-cancelled to every
registered listener unconditionally — in particular also when the
main-process registry has no active polling operation — and
cancelAuthentication and logout, which both call stopPolling, do the same;
n successive stopPolling calls deliver the event n times. -/
theorem C10_stopPolling_always_emits :
    (∀ (ea : Bool) (reg : ListenerReg) (m : MainPollingState),
      (stopPollingRenderer ea reg m).2 = getListeners reg "github-auth-cancelled") ∧
    (∀ (ea : Bool) (reg : ListenerReg) (m : MainPollingState),
      (cancelAuthentication ea reg m).2 = getListeners reg "github-auth-cancelled") ∧
    (∀ (ea : Bool) (reg : ListenerReg) (m : MainPollingState) (σ : TokenStorage),
      (logoutGitHub ea reg m σ).2.1 = getListeners reg "github-auth-cancelled") ∧
    (∀ (n : Nat) (ea : Bool) (reg : ListenerReg) (m : MainPollingState),
      (stopPollingN n ea reg m).2 =
        List.replicate n (getListeners reg "github-auth-cancelled")) := by
  refine ⟨fun _ _ _ => rfl, fun _ _ _ => rfl, fun _ _ _ _ => rfl, ?_⟩
  intro n
  induction n with
  | zero => intro ea reg m; rfl
  | succ k ih =>
      intro ea reg m
      simp [stopPollingN, stopPollingRenderer, emitEvent, List.replicate_succ, ih]
